import Mathlib

/-!
Verification of the asynchronous transaction job queue of the generic-rest-api
repository. The definitions below are a shallow embedding of `src/jobs.ts`
(bundled into `src/index.ts` in this source tree): the job data model, the
transaction processor `processTransactionJob`, the read-side queries `getJob`,
`getAllJobs` and `getJobSummary`, the queue configuration `initJobQueue`, and a
step relation capturing the BullMQ queue/worker lifecycle that those options
configure (a processor return value completes the job with that value as its
`returnvalue`; a thrown error is retried with backoff while attempts remain and
fails the job otherwise; the scheduler promotes delayed jobs; stalled active
jobs return to waiting).
-/

namespace GenericRestApi

/-- Retry decision produced by the error classifier in `src/errors.ts`.
The processor in `src/jobs.ts` branches on `RetryAction.None` and
`RetryAction.WithNewTransactionId`; the remaining constructor is the
retry-with-existing-invocation case. -/
inductive RetryAction
  | None
  | WithExistingTransactionId
  | WithNewTransactionId
deriving DecidableEq, Repr

/-- Modelled from the spec: `getRetryAction` lives in `src/errors.ts`, which is
not included in the source tree (only its callers are). Per the spec the
classifier is a total function from a closed set of error variants to a
`RetryAction`, so errors are modelled as carrying their string rendering
(the template `${err}` used by the processor) together with their
classification, which `getRetryAction` projects out. -/
structure LedgerError where
  message : String
  action : RetryAction
deriving DecidableEq, Repr

def getRetryAction (err : LedgerError) : RetryAction := err.action

/-- Data stored with each job, mirroring the `JobData` type of `src/jobs.ts`.
The `Buffer` of `transactionState` is modelled as a byte list. -/
structure JobData where
  mspId : String
  transactionName : String
  submit : Bool
  transactionArgs : List String
  transactionState : Option (List Nat)
  transactionIds : List String
deriving DecidableEq, Repr

/-- Result stored with each job, mirroring the `JobResult` type of
`src/jobs.ts`: both fields are optional. -/
structure JobResult where
  transactionPayload : Option String
  transactionError : Option String
deriving DecidableEq, Repr

/-- BullMQ job states as exposed by `Job.getState`. -/
inductive JobState
  | waiting
  | delayed
  | active
  | completed
  | failed
deriving DecidableEq, Repr

def JobState.toName : JobState → String
  | .waiting => "waiting"
  | .delayed => "delayed"
  | .active => "active"
  | .completed => "completed"
  | .failed => "failed"

/-- A queue-owned job. `id` is optional because BullMQ types it so and
`getJob` checks `job.id != undefined`; `returnvalue` is the processor return
value, typed `JobResult` as in `Worker<JobData, JobResult>` and empty until a
processor returns. -/
structure Job where
  id : Option String
  name : String
  data : JobData
  state : JobState
  attemptsMade : Nat
  returnvalue : JobResult
deriving DecidableEq, Repr

def Job.getState (j : Job) : String := j.state.toName

def Job.isCompleted (j : Job) : Bool := j.state = JobState.completed

def Job.isFailed (j : Job) : Bool := j.state = JobState.failed

/-- Opaque stand-in for a fabric-gateway `Contract` handle. -/
structure Contract where
  tag : Nat
deriving DecidableEq, Repr

/-- The environment a worker invocation sees: `locals` is the
`app.locals[mspId]?.contract` lookup, and `ledger` is the behaviour of
`submitTransaction` / `evatuateTransaction` for a call
(contract, submit flag, transaction name, arguments): a decoded payload on
success or a thrown `LedgerError`. -/
structure WorkerCtx where
  locals : String → Option Contract
  ledger : Contract → Bool → String → List String → Except LedgerError String

/-- Whether the processor returned a `JobResult` to the queue or let an error
propagate to the retry machinery. -/
inductive ProcessOutcome
  | returned (result : JobResult)
  | threw (err : LedgerError)
deriving DecidableEq, Repr

/-- Observable effects of one `processTransactionJob` call: its outcome,
whether the ledger collaborator was invoked, and whether the saved
transaction-state branch was taken. -/
structure ProcessTrace where
  outcome : ProcessOutcome
  ledgerInvoked : Bool
  reusedSavedState : Bool
deriving DecidableEq, Repr

/-- Shallow embedding of `processTransactionJob` from `src/jobs.ts`:
missing contract for the job's MSP ID gives an empty result without touching
the ledger; otherwise the transaction is submitted or evaluated; on success
the decoded payload is returned; on error, a `RetryAction.None` classification
returns a result carrying the error text, and any other classification
re-throws the error (the `WithNewTransactionId` branch only logs: the
`updateJobData` call that would clear the saved state is commented out in the
source). The job's `data` is never modified. -/
def processTransactionJob (ctx : WorkerCtx) (job : Job) : ProcessTrace :=
  match ctx.locals job.data.mspId with
  | none =>
      { outcome := ProcessOutcome.returned
          { transactionPayload := none, transactionError := none },
        ledgerInvoked := false,
        reusedSavedState := false }
  | some contract =>
      let reused := job.data.transactionState.isSome
      match ctx.ledger contract job.data.submit job.data.transactionName
          job.data.transactionArgs with
      | Except.ok result =>
          { outcome := ProcessOutcome.returned
              { transactionPayload := some result, transactionError := none },
            ledgerInvoked := true,
            reusedSavedState := reused }
      | Except.error err =>
          if getRetryAction err = RetryAction.None then
            { outcome := ProcessOutcome.returned
                { transactionPayload := none, transactionError := some err.message },
              ledgerInvoked := true,
              reusedSavedState := reused }
          else
            { outcome := ProcessOutcome.threw err,
              ledgerInvoked := true,
              reusedSavedState := reused }

/-- Shallow embedding of `addTransactionJob`: the job the queue stores for a
`jobQueue.add(jobName, {...})` call that was assigned identifier `id`.
New jobs wait, have made no attempts, and carry no return value. -/
def addTransactionJob (mspId transactionName : String) (submit : Bool)
    (transactionArgs : List String) (id : String) : Job :=
  { id := some id,
    name := transactionName ++ " transaction",
    data :=
      { mspId := mspId,
        transactionName := transactionName,
        submit := submit,
        transactionArgs := transactionArgs,
        transactionState := none,
        transactionIds := [] },
    state := JobState.waiting,
    attemptsMade := 0,
    returnvalue := { transactionPayload := none, transactionError := none } }

/-- Per-tenant error thrown by `getJob`; carries the message and job id the
source constructs. -/
structure JobNotFoundError where
  message : String
  jobId : String
deriving DecidableEq, Repr

/-- The queue's persisted store of jobs. -/
structure Queue where
  jobs : List Job
deriving DecidableEq, Repr

/-- BullMQ `queue.getJob`: look a job up by id. -/
def Queue.getJob (q : Queue) (jobId : String) : Option Job :=
  q.jobs.find? (fun j => j.id == some jobId)

/-- BullMQ `queue.getJobs(types)`: the jobs whose current state is named by
one of the requested type strings. -/
def Queue.getJobs (q : Queue) (types : List String) : List Job :=
  q.jobs.filter (fun j => types.contains j.state.toName)

/-- The state-type list `getAllJobs` passes to `queue.getJobs`. -/
def allJobTypes : List String :=
  ["active", "completed", "delayed", "failed", "paused", "repeat", "wait",
   "waiting", "waiting-children"]

/-- Shallow embedding of `getJobSummary`: the point-in-time state string, the
attempt count and invocation ids, and — only when the job is completed or
failed — the job's return value as its `result`. -/
def getJobSummaryResult (job : Job) : Option JobResult :=
  if job.isCompleted || job.isFailed then some job.returnvalue else none

structure JobSummary where
  jobId : String
  name : String
  state : String
  attempts : Nat
  transactionIds : List String
  result : Option JobResult
deriving DecidableEq, Repr

def getJobSummary (job : Job) : JobSummary :=
  { jobId := job.id.getD "unknown",
    name := job.name,
    state := job.getState,
    attempts := job.attemptsMade,
    transactionIds := job.data.transactionIds,
    result := getJobSummaryResult job }

/-- Shallow embedding of `getJob`: absent job, job without an id, and job
whose `data.mspId` differs from the caller's all raise the same
`JobNotFoundError`. -/
def getJob (mspId : String) (q : Queue) (jobId : String) :
    Except JobNotFoundError JobSummary :=
  match q.getJob jobId with
  | none =>
      Except.error { message := "Job " ++ jobId ++ " not found", jobId := jobId }
  | some job =>
      if job.id.isNone then
        Except.error { message := "Job " ++ jobId ++ " not found", jobId := jobId }
      else if job.data.mspId ≠ mspId then
        Except.error { message := "Job " ++ jobId ++ " not found", jobId := jobId }
      else
        Except.ok (getJobSummary job)

/-- Shallow embedding of `getAllJobs`: fetch jobs in every state, keep those
whose `data.mspId` matches the caller, and summarise each. -/
def getAllJobs (mspId : String) (q : Queue) : List JobSummary :=
  ((q.getJobs allJobTypes).filter (fun job => job.data.mspId == mspId)).map
    getJobSummary

/-- Backoff strategies accepted by the `SUBMIT_JOB_BACKOFF_TYPE` setting. -/
inductive BackoffType
  | fixed
  | exponential
deriving DecidableEq, Repr

/-- Modelled from the spec: the configuration module `src/config.ts` is not
included in the source tree (only its unit tests are). Field defaults follow
the spec's configuration surface and the expectations of the config test
suite: attempt limit 5, fixed backoff with 3000ms base delay, worker
concurrency 5, retention caps of 1000 completed and 1000 failed jobs, and the
queue scheduler enabled. -/
structure Config where
  submitJobAttempts : Nat := 5
  submitJobBackoffType : BackoffType := BackoffType.fixed
  submitJobBackoffDelay : Nat := 3000
  submitJobConcurrency : Nat := 5
  maxCompletedSubmitJobs : Nat := 1000
  maxFailedSubmitJobs : Nat := 1000
  submitJobQueueScheduler : Bool := true
deriving DecidableEq, Repr

/-- The configuration obtained when every setting takes its default. -/
def defaultConfig : Config := {}

structure BackoffOptions where
  type : BackoffType
  delay : Nat
deriving DecidableEq, Repr

/-- The `defaultJobOptions` BullMQ enforces for every job added to the
queue. -/
structure JobOptions where
  attempts : Nat
  backoff : BackoffOptions
  removeOnComplete : Nat
  removeOnFail : Nat
deriving DecidableEq, Repr

/-- Shallow embedding of `initJobQueue`: the default job options the queue is
created with, wired from the configuration. -/
def initJobQueue (cfg : Config) : JobOptions :=
  { attempts := cfg.submitJobAttempts,
    backoff :=
      { type := cfg.submitJobBackoffType, delay := cfg.submitJobBackoffDelay },
    removeOnComplete := cfg.maxCompletedSubmitJobs,
    removeOnFail := cfg.maxFailedSubmitJobs }

structure WorkerOptions where
  concurrency : Nat
deriving DecidableEq, Repr

/-- Shallow embedding of `initJobQueueWorker`: the worker options, wired from
the configuration. -/
def initJobQueueWorker (cfg : Config) : WorkerOptions :=
  { concurrency := cfg.submitJobConcurrency }

/-- Shallow embedding of the scheduler wiring in `main`: the queue scheduler
is initialised exactly when `config.submitJobQueueScheduler === true`. -/
def schedulerInitialised (cfg : Config) : Bool :=
  cfg.submitJobQueueScheduler == true

/-- One observable transition of a job under the BullMQ lifecycle configured
by the queue's job options: a waiting job is claimed by a worker slot while
attempts remain, incrementing `attemptsMade`; the scheduler promotes a delayed
job back to waiting; a stalled active job returns to waiting; a processor
return value completes the job with that value as its `returnvalue`; a thrown
error re-schedules the job with backoff while attempts remain and fails it
once the configured attempt limit is reached. -/
inductive QStep (opts : JobOptions) : Job → Job → Prop
  | claim (j j' : Job) :
      j.state = JobState.waiting →
      j.attemptsMade < opts.attempts →
      j' = { j with state := JobState.active, attemptsMade := j.attemptsMade + 1 } →
      QStep opts j j'
  | promote (j j' : Job) :
      j.state = JobState.delayed →
      j' = { j with state := JobState.waiting } →
      QStep opts j j'
  | stall (j j' : Job) :
      j.state = JobState.active →
      j' = { j with state := JobState.waiting } →
      QStep opts j j'
  | complete (j j' : Job) (ctx : WorkerCtx) (r : JobResult) :
      j.state = JobState.active →
      (processTransactionJob ctx j).outcome = ProcessOutcome.returned r →
      j' = { j with state := JobState.completed, returnvalue := r } →
      QStep opts j j'
  | retryDelay (j j' : Job) (ctx : WorkerCtx) (err : LedgerError) :
      j.state = JobState.active →
      (processTransactionJob ctx j).outcome = ProcessOutcome.threw err →
      j.attemptsMade < opts.attempts →
      j' = { j with state := JobState.delayed } →
      QStep opts j j'
  | exhaust (j j' : Job) (ctx : WorkerCtx) (err : LedgerError) :
      j.state = JobState.active →
      (processTransactionJob ctx j).outcome = ProcessOutcome.threw err →
      opts.attempts ≤ j.attemptsMade →
      j' = { j with state := JobState.failed } →
      QStep opts j j'

/-- A job state reachable from another through the queue lifecycle. -/
def Reachable (opts : JobOptions) : Job → Job → Prop :=
  Relation.ReflTransGen (QStep opts)

/-- The empty job result, as returned when no contract is found. -/
def JobResultEmpty : JobResult :=
  { transactionPayload := none, transactionError := none }

/-- Invariant maintained by the queue lifecycle for every enqueued job: the
return value is empty while the job is in a non-terminal state, and at no
point are both result fields populated. -/
def ResultInv (j : Job) : Prop :=
  ((j.state = JobState.waiting ∨ j.state = JobState.delayed ∨
      j.state = JobState.active) → j.returnvalue = JobResultEmpty) ∧
  (j.returnvalue.transactionPayload = none ∨
    j.returnvalue.transactionError = none)

/-- An error the classifier treats as permanent. -/
def permErr : LedgerError :=
  { message := "Error: boom", action := RetryAction.None }

/-- An error the classifier treats as retryable with the same invocation. -/
def sameErr : LedgerError :=
  { message := "Error: timeout", action := RetryAction.WithExistingTransactionId }

/-- An error the classifier treats as retryable with a fresh invocation id. -/
def newErr : LedgerError :=
  { message := "Error: txid", action := RetryAction.WithNewTransactionId }

/-- A concrete contract handle for the Org1MSP tenant. -/
def cContract : Contract := { tag := 0 }

/-- A worker environment whose Org1MSP contract always fails with `e`. -/
def errCtx (e : LedgerError) : WorkerCtx :=
  { locals := fun m => if m = "Org1MSP" then some cContract else none,
    ledger := fun _ _ _ _ => Except.error e }

/-- A worker environment with no contract bound for any tenant. -/
def noneCtx : WorkerCtx :=
  { locals := fun _ => none,
    ledger := fun _ _ _ _ => Except.error permErr }

/-- A concrete enqueued job owned by Org1MSP. -/
def job0 : Job := addTransactionJob "Org1MSP" "CreateAsset" true ["asset1"] "1"

/-- The job `job0` once claimed by a worker slot for its first attempt. -/
def job1 : Job := { job0 with state := JobState.active, attemptsMade := 1 }

/-- The job `job1` completed with a permanent-error result. -/
def permFinal : Job :=
  { job1 with
    state := JobState.completed
    returnvalue :=
      { transactionPayload := none, transactionError := some "Error: boom" } }

/-- The job `job1` completed with an empty result. -/
def emptyFinal : Job := { job1 with state := JobState.completed }

/-- The job `job1` re-scheduled with backoff after a retryable failure. -/
def jobDelayed : Job := { job1 with state := JobState.delayed }

/-- A concrete enqueued job owned by Org2MSP. -/
def otherJob : Job := addTransactionJob "Org2MSP" "CreateAsset" true [] "2"

/-- A concrete queue holding only `otherJob`. -/
def wQueue : Queue := { jobs := [otherJob] }

/-- No lifecycle transition modifies a job's stored data: `updateJobData` is
commented out in the source, and `processTransactionJob` only reads it. -/
theorem qstep_data_eq {opts : JobOptions} {j j' : Job} (h : QStep opts j j') :
    j'.data = j.data := by
  cases h <;> subst_vars <;> rfl

theorem reachable_data_eq {opts : JobOptions} {j0 j : Job}
    (hr : Reachable opts j0 j) : j.data = j0.data := by
  induction hr with
  | refl => rfl
  | tail _ hst ih => exact (qstep_data_eq hst).trans ih

/-- Each transition keeps `attemptsMade` within the configured attempt
limit: it only grows when a waiting job with attempts remaining is claimed. -/
theorem qstep_attempts_le {opts : JobOptions} {j j' : Job} (h : QStep opts j j')
    (hle : j.attemptsMade ≤ opts.attempts) :
    j'.attemptsMade ≤ opts.attempts := by
  cases h with
  | claim h1 h2 he => subst he; exact h2
  | promote h1 he => subst he; exact hle
  | stall h1 he => subst he; exact hle
  | complete ctx r h1 h2 he => subst he; exact hle
  | retryDelay ctx err h1 h2 h3 he => subst he; exact hle
  | exhaust ctx err h1 h2 h3 he => subst he; exact hle

theorem reachable_attempts_le {opts : JobOptions} {j0 j : Job}
    (h0 : j0.attemptsMade ≤ opts.attempts) (hr : Reachable opts j0 j) :
    j.attemptsMade ≤ opts.attempts := by
  induction hr with
  | refl => exact h0
  | tail _ hst ih => exact qstep_attempts_le hst ih

/-- Transitions only leave non-terminal states: completed and failed jobs
stay put. -/
theorem qstep_src_not_terminal {opts : JobOptions} {j j' : Job}
    (h : QStep opts j j') :
    j.state ≠ JobState.completed ∧ j.state ≠ JobState.failed := by
  cases h <;> subst_vars <;> simp_all

/-- Equation for `processTransactionJob` when no contract is bound for the
job's MSP ID. -/
theorem processTransactionJob_noContract {ctx : WorkerCtx} {j : Job}
    (h : ctx.locals j.data.mspId = none) :
    processTransactionJob ctx j =
      { outcome := ProcessOutcome.returned JobResultEmpty,
        ledgerInvoked := false, reusedSavedState := false } := by
  simp [processTransactionJob, h, JobResultEmpty]

/-- Equation for `processTransactionJob` when the ledger invocation
succeeds. -/
theorem processTransactionJob_ok {ctx : WorkerCtx} {j : Job} {c : Contract}
    {result : String} (hc : ctx.locals j.data.mspId = some c)
    (hl : ctx.ledger c j.data.submit j.data.transactionName
      j.data.transactionArgs = Except.ok result) :
    processTransactionJob ctx j =
      { outcome := ProcessOutcome.returned
          { transactionPayload := some result, transactionError := none },
        ledgerInvoked := true,
        reusedSavedState := j.data.transactionState.isSome } := by
  simp [processTransactionJob, hc, hl]

/-- Equation for `processTransactionJob` when the ledger invocation fails
with a permanently-classified error. -/
theorem processTransactionJob_fatal {ctx : WorkerCtx} {j : Job} {c : Contract}
    {err : LedgerError} (hc : ctx.locals j.data.mspId = some c)
    (hl : ctx.ledger c j.data.submit j.data.transactionName
      j.data.transactionArgs = Except.error err)
    (hcl : getRetryAction err = RetryAction.None) :
    processTransactionJob ctx j =
      { outcome := ProcessOutcome.returned
          { transactionPayload := none, transactionError := some err.message },
        ledgerInvoked := true,
        reusedSavedState := j.data.transactionState.isSome } := by
  simp [processTransactionJob, hc, hl]
  simp [hcl]

/-- Equation for `processTransactionJob` when the ledger invocation fails
with a retryably-classified error: the error is re-thrown. -/
theorem processTransactionJob_rethrow {ctx : WorkerCtx} {j : Job}
    {c : Contract} {err : LedgerError} (hc : ctx.locals j.data.mspId = some c)
    (hl : ctx.ledger c j.data.submit j.data.transactionName
      j.data.transactionArgs = Except.error err)
    (hcl : getRetryAction err ≠ RetryAction.None) :
    processTransactionJob ctx j =
      { outcome := ProcessOutcome.threw err,
        ledgerInvoked := true,
        reusedSavedState := j.data.transactionState.isSome } := by
  simp [processTransactionJob, hc, hl]
  simp [hcl]

/-- Every result the processor returns to the queue has at most one of its
two fields populated. -/
theorem process_returned_shape {ctx : WorkerCtx} {j : Job} {r : JobResult}
    (h : (processTransactionJob ctx j).outcome = ProcessOutcome.returned r) :
    r.transactionPayload = none ∨ r.transactionError = none := by
  cases hc : ctx.locals j.data.mspId with
  | none =>
      rw [processTransactionJob_noContract hc] at h
      injection h with h'
      rw [← h']
      exact Or.inl rfl
  | some c =>
      cases hl : ctx.ledger c j.data.submit j.data.transactionName
          j.data.transactionArgs with
      | ok result =>
          rw [processTransactionJob_ok hc hl] at h
          injection h with h'
          rw [← h']
          exact Or.inr rfl
      | error err =>
          by_cases hcl : getRetryAction err = RetryAction.None
          · rw [processTransactionJob_fatal hc hl hcl] at h
            injection h with h'
            rw [← h']
            exact Or.inl rfl
          · rw [processTransactionJob_rethrow hc hl hcl] at h
            exact absurd h (by simp)

theorem qstep_resultInv {opts : JobOptions} {j j' : Job} (h : QStep opts j j')
    (hinv : ResultInv j) : ResultInv j' := by
  obtain ⟨hpend, hmo⟩ := hinv
  cases h with
  | claim h1 h2 he =>
      subst he; exact ⟨fun _ => hpend (Or.inl h1), hmo⟩
  | promote h1 he =>
      subst he; exact ⟨fun _ => hpend (Or.inr (Or.inl h1)), hmo⟩
  | stall h1 he =>
      subst he; exact ⟨fun _ => hpend (Or.inr (Or.inr h1)), hmo⟩
  | complete ctx r h1 h2 he =>
      subst he
      exact ⟨fun hcon => by simp at hcon, process_returned_shape h2⟩
  | retryDelay ctx err h1 h2 h3 he =>
      subst he; exact ⟨fun _ => hpend (Or.inr (Or.inr h1)), hmo⟩
  | exhaust ctx err h1 h2 h3 he =>
      subst he; exact ⟨fun hcon => by simp at hcon, hmo⟩

theorem reachable_resultInv {opts : JobOptions} {j0 j : Job}
    (h0 : ResultInv j0) (hr : Reachable opts j0 j) : ResultInv j := by
  induction hr with
  | refl => exact h0
  | tail _ hst ih => exact qstep_resultInv hst ih

/-- The state-type list passed by `getAllJobs` covers every job state, so the
fetch returns the whole queue. -/
theorem getJobs_allJobTypes (q : Queue) : q.getJobs allJobTypes = q.jobs := by
  unfold Queue.getJobs
  rw [List.filter_eq_self]
  intro j hj
  cases hs : j.state <;> simp [allJobTypes, JobState.toName, hs]

/-- Claim C1, counterexample: a job whose single attempt fails with an error
the classifier maps to `RetryAction.None` terminates in state `completed`,
not `failed`: the processor returns a job result carrying the error text, and
the queue records a returned value as successful completion. -/
theorem claim1_counterexample :
    getRetryAction permErr = RetryAction.None ∧
    (errCtx permErr).ledger cContract job1.data.submit job1.data.transactionName
      job1.data.transactionArgs = Except.error permErr ∧
    Reachable (initJobQueue defaultConfig) job0 permFinal ∧
    permFinal.state = JobState.completed ∧
    permFinal.state ≠ JobState.failed ∧
    permFinal.returnvalue.transactionError = some "Error: boom" := by
  refine ⟨rfl, rfl, ?_, rfl, by decide, rfl⟩
  have s1 : QStep (initJobQueue defaultConfig) job0 job1 :=
    QStep.claim job0 job1 rfl (by decide) (by decide)
  have s2 : QStep (initJobQueue defaultConfig) job1 permFinal :=
    QStep.complete job1 permFinal (errCtx permErr)
      { transactionPayload := none, transactionError := some "Error: boom" }
      rfl (by decide) (by decide)
  exact Relation.ReflTransGen.tail (Relation.ReflTransGen.single s1) s2

/-- Claim C1 (amended): for every job whose attempt fails with an error the
classifier maps to `RetryAction.None`, the processor returns a job result
whose `transactionError` captures the error text, the queue completes the job
with that result after exactly that attempt (terminal state `completed`
rather than `failed`), and the job is not retried even if attempts remain. -/
theorem permanent_error_terminates_job (opts : JobOptions) (ctx : WorkerCtx)
    (j : Job) (c : Contract) (err : LedgerError)
    (hact : j.state = JobState.active)
    (hc : ctx.locals j.data.mspId = some c)
    (hl : ctx.ledger c j.data.submit j.data.transactionName
      j.data.transactionArgs = Except.error err)
    (hcls : getRetryAction err = RetryAction.None) :
    (processTransactionJob ctx j).outcome = ProcessOutcome.returned
      { transactionPayload := none, transactionError := some err.message } ∧
    QStep opts j
      { j with
        state := JobState.completed
        returnvalue :=
          { transactionPayload := none, transactionError := some err.message } } ∧
    ∀ k, ¬ QStep opts
      { j with
        state := JobState.completed
        returnvalue :=
          { transactionPayload := none, transactionError := some err.message } } k := by
  have hout : (processTransactionJob ctx j).outcome = ProcessOutcome.returned
      { transactionPayload := none, transactionError := some err.message } := by
    rw [processTransactionJob_fatal hc hl hcls]
  refine ⟨hout, QStep.complete j _ ctx _ hact hout rfl, ?_⟩
  intro k hk
  exact (qstep_src_not_terminal hk).1 rfl

/-- Witness for the amended claim C1 at a concrete job, environment and
error. -/
theorem permanent_error_terminates_job_app :
    (processTransactionJob (errCtx permErr) job1).outcome =
      ProcessOutcome.returned
        { transactionPayload := none, transactionError := some permErr.message } ∧
    QStep (initJobQueue defaultConfig) job1
      { job1 with
        state := JobState.completed
        returnvalue :=
          { transactionPayload := none,
            transactionError := some permErr.message } } := by
  obtain ⟨h1, h2, h3⟩ := permanent_error_terminates_job
    (initJobQueue defaultConfig) (errCtx permErr) job1 cContract permErr
    rfl (by decide) rfl rfl
  exact ⟨h1, h2⟩

/-- Claim C2: for every reachable job whose attempt fails with an error
classified `RetryAction.WithNewTransactionId`, its saved transaction state is
absent after the failure and before the next attempt, and previously recorded
invocation ids are not removed. This holds because no lifecycle transition
ever writes to the job data: the `updateJobData` call that would save (and
clear) transaction state is commented out in the source, so the saved state
of every queue-created job is invariantly absent. -/
theorem new_invocation_saved_state_cleared (cfg : Config)
    (mspId transactionName : String) (submit : Bool) (args : List String)
    (id : String) (j j' : Job) (ctx : WorkerCtx) (err : LedgerError)
    (hr : Reachable (initJobQueue cfg)
      (addTransactionJob mspId transactionName submit args id) j)
    (_hcls : getRetryAction err = RetryAction.WithNewTransactionId)
    (_hout : (processTransactionJob ctx j).outcome = ProcessOutcome.threw err)
    (hstep : QStep (initJobQueue cfg) j j') :
    j'.data.transactionState = none ∧
    j'.data.transactionIds = j.data.transactionIds := by
  have hd := qstep_data_eq hstep
  have hd0 := reachable_data_eq hr
  exact ⟨by simp [hd, hd0, addTransactionJob], by simp [hd]⟩

/-- Witness for claim C2 at a concrete job, environment and error. -/
theorem new_invocation_saved_state_cleared_app :
    jobDelayed.data.transactionState = none ∧
    jobDelayed.data.transactionIds = job1.data.transactionIds := by
  refine new_invocation_saved_state_cleared defaultConfig "Org1MSP"
    "CreateAsset" true ["asset1"] "1" job1 jobDelayed (errCtx newErr) newErr
    ?_ rfl (by decide) ?_
  · exact Relation.ReflTransGen.single
      (QStep.claim job0 job1 rfl (by decide) (by decide))
  · exact QStep.retryDelay job1 jobDelayed (errCtx newErr) newErr rfl
      (by decide) (by decide) (by decide)

/-- Claim C3, counterexample: a job whose tenant has no contract bound
reaches the terminal state `completed` with an empty result, so neither
result field is set on a terminal job and "exactly one" fails. -/
theorem claim3_counterexample :
    Reachable (initJobQueue defaultConfig) job0 emptyFinal ∧
    emptyFinal.state = JobState.completed ∧
    emptyFinal.returnvalue.transactionPayload = none ∧
    emptyFinal.returnvalue.transactionError = none := by
  refine ⟨?_, rfl, rfl, rfl⟩
  have s1 : QStep (initJobQueue defaultConfig) job0 job1 :=
    QStep.claim job0 job1 rfl (by decide) (by decide)
  have s2 : QStep (initJobQueue defaultConfig) job1 emptyFinal :=
    QStep.complete job1 emptyFinal noneCtx JobResultEmpty rfl (by decide)
      (by decide)
  exact Relation.ReflTransGen.tail (Relation.ReflTransGen.single s1) s2

/-- Claim C3 (amended): for every reachable job, at most one of the result
fields `transactionPayload` and `transactionError` is set (a terminal job may
carry an empty result, e.g. after a missing-contract termination or attempt
exhaustion), and both are absent while the job is pending (waiting, delayed
or active). -/
theorem result_fields_at_most_one (cfg : Config)
    (mspId transactionName : String) (submit : Bool) (args : List String)
    (id : String) (j : Job)
    (hr : Reachable (initJobQueue cfg)
      (addTransactionJob mspId transactionName submit args id) j) :
    ((j.state = JobState.waiting ∨ j.state = JobState.delayed ∨
        j.state = JobState.active) → j.returnvalue = JobResultEmpty) ∧
    (j.returnvalue.transactionPayload = none ∨
      j.returnvalue.transactionError = none) :=
  reachable_resultInv ⟨fun _ => rfl, Or.inl rfl⟩ hr

/-- Witness for the amended claim C3 at a freshly enqueued concrete job. -/
theorem result_fields_at_most_one_app :
    ((job0.state = JobState.waiting ∨ job0.state = JobState.delayed ∨
        job0.state = JobState.active) → job0.returnvalue = JobResultEmpty) ∧
    (job0.returnvalue.transactionPayload = none ∨
      job0.returnvalue.transactionError = none) :=
  result_fields_at_most_one defaultConfig "Org1MSP" "CreateAsset" true
    ["asset1"] "1" job0 Relation.ReflTransGen.refl

/-- Claim C4: `getJob` raises the same `JobNotFoundError` whether the job is
absent, lacks an id, or belongs to a different tenant — the cases are
indistinguishable to the caller — and `getAllJobs` returns exactly the
summaries of jobs whose `data.mspId` equals the requesting tenant. -/
theorem tenant_isolation_on_reads (t : String) (q : Queue) (jid : String) :
    ((q.getJob jid = none ∨
        (∃ job, q.getJob jid = some job ∧
          (job.id = none ∨ job.data.mspId ≠ t))) →
      getJob t q jid =
        Except.error { message := "Job " ++ jid ++ " not found", jobId := jid }) ∧
    (∀ s, s ∈ getAllJobs t q ↔
      ∃ job, job ∈ q.jobs ∧ job.data.mspId = t ∧ s = getJobSummary job) := by
  constructor
  · intro hcase
    unfold getJob
    rcases hcase with hnone | ⟨job, hsome, hbad⟩
    · rw [hnone]
    · rw [hsome]
      rcases hbad with hid | hmsp
      · simp [hid]
      · by_cases hid : job.id.isNone
        · simp [hid]
        · simp [hid, hmsp]
  · intro s
    unfold getAllJobs
    rw [getJobs_allJobTypes]
    simp only [List.mem_map, List.mem_filter]
    constructor
    · rintro ⟨job, ⟨hmem, hbeq⟩, hs⟩
      exact ⟨job, hmem, by simpa using hbeq, hs.symm⟩
    · rintro ⟨job, hmem, hmsp, hs⟩
      exact ⟨job, ⟨hmem, by simp [hmsp]⟩, hs.symm⟩

/-- Witness for claim C4: a tenant-mismatched read is rejected with the
not-found error, and the job's owner sees it listed. -/
theorem tenant_isolation_on_reads_app :
    getJob "Org1MSP" wQueue "2" =
      Except.error { message := "Job 2 not found", jobId := "2" } ∧
    getJobSummary otherJob ∈ getAllJobs "Org2MSP" wQueue := by
  obtain ⟨h1, _⟩ := tenant_isolation_on_reads "Org1MSP" wQueue "2"
  obtain ⟨_, h2⟩ := tenant_isolation_on_reads "Org2MSP" wQueue "2"
  refine ⟨h1 (Or.inr ⟨otherJob, by decide, Or.inr (by decide)⟩), ?_⟩
  exact (h2 (getJobSummary otherJob)).mpr ⟨otherJob, by decide, rfl, rfl⟩

/-- Claim C5: for every job whose attempt fails with an error classified
other than `RetryAction.None`, `processTransactionJob` re-throws the error so
the queue's retry machinery can re-schedule the job (a delayed retry
transition exists while attempts remain), and no transition changes the job's
data, so a job classified `WithExistingTransactionId` retains its most recent
saved transaction state across the failed attempt. -/
theorem retryable_error_rethrown (ctx : WorkerCtx) (j : Job) (c : Contract)
    (err : LedgerError)
    (hc : ctx.locals j.data.mspId = some c)
    (hl : ctx.ledger c j.data.submit j.data.transactionName
      j.data.transactionArgs = Except.error err)
    (hcls : getRetryAction err ≠ RetryAction.None) :
    (processTransactionJob ctx j).outcome = ProcessOutcome.threw err ∧
    (∀ (opts : JobOptions) (j' : Job), QStep opts j j' →
      j'.data.transactionState = j.data.transactionState) ∧
    (∀ opts : JobOptions, j.state = JobState.active →
      j.attemptsMade < opts.attempts →
      QStep opts j { j with state := JobState.delayed }) := by
  have hout : (processTransactionJob ctx j).outcome = ProcessOutcome.threw err := by
    rw [processTransactionJob_rethrow hc hl hcls]
  refine ⟨hout, ?_, ?_⟩
  · intro opts j' hstep
    rw [qstep_data_eq hstep]
  · intro opts hact hlt
    exact QStep.retryDelay j _ ctx err hact hout hlt rfl

/-- Witness for claim C5 at a concrete job, environment and transiently
classified error. -/
theorem retryable_error_rethrown_app :
    (processTransactionJob (errCtx sameErr) job1).outcome =
      ProcessOutcome.threw sameErr ∧
    QStep (initJobQueue defaultConfig) job1
      { job1 with state := JobState.delayed } := by
  obtain ⟨h1, h2, h3⟩ := retryable_error_rethrown (errCtx sameErr) job1
    cContract sameErr (by decide) rfl (by decide)
  exact ⟨h1, h3 (initJobQueue defaultConfig) rfl (by decide)⟩

/-- Claim C6: for every job whose tenant has no resolvable contract,
`processTransactionJob` terminates the job on that attempt with an empty
result (both result fields absent) without invoking the ledger; the queue
completes the job with that empty result, and a completed job admits no
further transition, so there is no retry. -/
theorem missing_contract_terminates (ctx : WorkerCtx) (j : Job)
    (h : ctx.locals j.data.mspId = none) :
    processTransactionJob ctx j =
      { outcome := ProcessOutcome.returned JobResultEmpty,
        ledgerInvoked := false, reusedSavedState := false } ∧
    (∀ opts : JobOptions, j.state = JobState.active →
      QStep opts j
        { j with state := JobState.completed, returnvalue := JobResultEmpty }) ∧
    (∀ (opts : JobOptions) (k : Job), ¬ QStep opts
      { j with state := JobState.completed, returnvalue := JobResultEmpty } k) := by
  have heq := processTransactionJob_noContract h
  refine ⟨heq, ?_, ?_⟩
  · intro opts hact
    exact QStep.complete j _ ctx JobResultEmpty hact (by rw [heq]) rfl
  · intro opts k hk
    exact (qstep_src_not_terminal hk).1 rfl

/-- Witness for claim C6 at a concrete job in an environment with no bound
contracts. -/
theorem missing_contract_terminates_app :
    processTransactionJob noneCtx job1 =
      { outcome := ProcessOutcome.returned JobResultEmpty,
        ledgerInvoked := false, reusedSavedState := false } ∧
    QStep (initJobQueue defaultConfig) job1 emptyFinal := by
  obtain ⟨h1, h2, h3⟩ := missing_contract_terminates noneCtx job1 rfl
  have he : ({ job1 with
      state := JobState.completed
      returnvalue := JobResultEmpty } : Job) = emptyFinal := by decide
  exact ⟨h1, he ▸ h2 (initJobQueue defaultConfig) rfl⟩

/-- Claim C7: for every job at every reachable point of its lifecycle,
`attemptsMade` is at most the `attempts` option `initJobQueue` sets from
`config.submitJobAttempts`, whose default is 5. -/
theorem attempts_made_le_limit (cfg : Config) (mspId transactionName : String)
    (submit : Bool) (args : List String) (id : String) (j : Job)
    (hr : Reachable (initJobQueue cfg)
      (addTransactionJob mspId transactionName submit args id) j) :
    j.attemptsMade ≤ (initJobQueue cfg).attempts ∧
    (initJobQueue cfg).attempts = cfg.submitJobAttempts ∧
    defaultConfig.submitJobAttempts = 5 :=
  ⟨reachable_attempts_le (Nat.zero_le _) hr, rfl, rfl⟩

/-- Witness for claim C7 at a concrete job after its first claim. -/
theorem attempts_made_le_limit_app :
    job1.attemptsMade ≤ (initJobQueue defaultConfig).attempts ∧
    (initJobQueue defaultConfig).attempts = defaultConfig.submitJobAttempts ∧
    defaultConfig.submitJobAttempts = 5 :=
  attempts_made_le_limit defaultConfig "Org1MSP" "CreateAsset" true ["asset1"]
    "1" job1
    (Relation.ReflTransGen.single (QStep.claim job0 job1 rfl (by decide)
      (by decide)))

/-- Claim C8: the summary built by `getJobSummary` (used by both `getJob` and
`getAllJobs`) carries the job's point-in-time state string, and carries the
`result` field exactly when the job is completed or failed, in which case the
result is the job's return value. -/
theorem job_summary_state_result (j : Job) :
    (getJobSummary j).state = j.state.toName ∧
    (getJobSummary j).result.isSome = (j.isCompleted || j.isFailed) ∧
    (getJobSummary j).result =
      (if j.isCompleted || j.isFailed then some j.returnvalue else none) := by
  refine ⟨rfl, ?_, rfl⟩
  cases h : (j.isCompleted || j.isFailed) <;>
    simp [getJobSummary, getJobSummaryResult, h]

/-- Claim C9: with every configuration value at its default, the queue is
created with attempt limit 5, fixed backoff with a 3000ms base delay, and
retention caps of 1000 completed and 1000 failed jobs; the worker runs with
concurrency 5; and the queue scheduler component is initialised. -/
theorem default_configuration_wiring :
    initJobQueue defaultConfig =
      { attempts := 5,
        backoff := { type := BackoffType.fixed, delay := 3000 },
        removeOnComplete := 1000,
        removeOnFail := 1000 } ∧
    initJobQueueWorker defaultConfig = { concurrency := 5 } ∧
    schedulerInitialised defaultConfig = true :=
  ⟨rfl, rfl, rfl⟩

/-- Claim C10: for every job, the invocation-id history is empty and the
saved transaction state absent at enqueue and at every reachable later
point: no lifecycle transition updates the job's data. -/
theorem job_data_never_updated (cfg : Config) (mspId transactionName : String)
    (submit : Bool) (args : List String) (id : String) (j : Job)
    (hr : Reachable (initJobQueue cfg)
      (addTransactionJob mspId transactionName submit args id) j) :
    j.data.transactionIds = [] ∧ j.data.transactionState = none ∧
    j.data = (addTransactionJob mspId transactionName submit args id).data := by
  have hd := reachable_data_eq hr
  exact ⟨by simp [hd, addTransactionJob], by simp [hd, addTransactionJob], hd⟩

/-- Witness for claim C10 at a concrete job after its first claim. -/
theorem job_data_never_updated_app :
    job1.data.transactionIds = [] ∧ job1.data.transactionState = none ∧
    job1.data =
      (addTransactionJob "Org1MSP" "CreateAsset" true ["asset1"] "1").data :=
  job_data_never_updated defaultConfig "Org1MSP" "CreateAsset" true ["asset1"]
    "1" job1
    (Relation.ReflTransGen.single (QStep.claim job0 job1 rfl (by decide)
      (by decide)))

end GenericRestApi
